import Mathlib

/-!
Verification of the kart-irl ESP32 firmware against its specification.

The firmware drives a remote-controlled go-kart: a DC motor behind a
TB6612FNG driver (`lib/engine`), a steering servo (`lib/servo_controller`),
a status LED (`lib/led`), an MJPEG camera stream (`lib/camera`) and a
WebSocket command dispatcher (`lib/web_server`).  This file gives a shallow
embedding of those components: pure Lean functions mirror the C++ functions,
GPIO writes become fields of explicit output records, and the externally
supplied results (camera frames, chunked HTTP write results, JSON parse
results) become explicit parameters.  Definitions come first, then the
theorems about them.
-/

namespace KartIrl

/-- A GPIO pin level, as written by `digitalWrite` (LOW / HIGH). -/
inductive PinLevel
  | low
  | high
  deriving DecidableEq, Repr

/-- The observable output of `Motor::setSpeed`: the two direction pins of the
TB6612FNG driver and the PWM duty written with `ledcWrite`. -/
structure MotorPins where
  in1 : PinLevel
  in2 : PinLevel
  duty : Nat
  deriving DecidableEq, Repr

/-- Embedding of `Motor::setSpeed` (engine.cpp, lines 19-33).  The argument is
first clamped by the two `if` statements, the direction pins are set by the
`if / else if / else` chain, and `ledcWrite(_channel, abs(speed))` writes the
absolute value of the clamped speed as the PWM duty. -/
def Motor.setSpeed (speed : Int) : MotorPins :=
  let s1 := if speed < -255 then (-255 : Int) else speed
  let s2 := if s1 > 255 then (255 : Int) else s1
  let pins : PinLevel × PinLevel :=
    if s2 > 0 then (.high, .low)
    else if s2 < 0 then (.low, .high)
    else (.low, .low)
  { in1 := pins.1, in2 := pins.2, duty := s2.natAbs }

/-- Embedding of `engineSetSpeed` (engine.cpp, lines 49-52): forwards the raw
speed to `Motor::setSpeed` and logs one line. -/
def engineSetSpeed (speed : Int) : MotorPins × List String :=
  (Motor.setSpeed speed, ["Moteur vitesse " ++ toString speed])

/-- Embedding of `ledOn` (led.cpp, lines 10-12): `digitalWrite(ledPin, HIGH)`,
as a function of the previous pin level. -/
def ledOn (_prev : PinLevel) : PinLevel := .high

/-- Embedding of `ledOff` (led.cpp, lines 14-16): `digitalWrite(ledPin, LOW)`,
as a function of the previous pin level. -/
def ledOff (_prev : PinLevel) : PinLevel := .low

/-- Specification-side clamp of an integer to `[lo, hi]` (nearest bound). -/
def clampSpec (lo hi x : Int) : Int := max lo (min hi x)

/-- The persistent state of the self-driven servo sweep: the two `static`
locals `angle` and `direction` of `servoLoop`
(servo_controller.cpp, lines 14-35). -/
structure SweepState where
  angle : Int
  direction : Int
  deriving DecidableEq, Repr

/-- Initial values of the `static` locals of `servoLoop`: `angle = 90`,
`direction = 1`. -/
def sweepInit : SweepState := { angle := 90, direction := 1 }

/-- Embedding of one fired tick of `servoLoop` (the body guarded by
`millis() - lastMove > 20`): `angle += direction`, then the two boundary
checks reverse `direction` and log a line, then `monServo.write(angle)` writes
the updated angle.  Returns the updated state (whose `angle` field is exactly
the angle written to the servo) together with the log lines emitted. -/
def servoLoopTick (s : SweepState) : SweepState × List String :=
  let angle := s.angle + s.direction
  let d1 := if angle ≥ 180 then (-1 : Int) else s.direction
  let l1 : List String := if angle ≥ 180 then ["Servo: 180° → 0°"] else []
  let d2 := if angle ≤ 0 then (1 : Int) else d1
  let l2 : List String := l1 ++ (if angle ≤ 0 then ["Servo: 0° → 180°"] else [])
  ({ angle := angle, direction := d2 }, l2)

/-- The sweep state after `n` fired ticks, starting from the initial state. -/
def sweepAfter (n : Nat) : SweepState :=
  Nat.iterate (fun s => (servoLoopTick s).1) n sweepInit

/-- Invariant of the servo sweep: the direction is `±1`, the angle stays in
`[0, 180]`, and at a boundary the direction already points back inward. -/
def SweepInv (s : SweepState) : Prop :=
  (s.direction = 1 ∨ s.direction = -1) ∧ 0 ≤ s.angle ∧ s.angle ≤ 180 ∧
    (s.angle = 180 → s.direction = -1) ∧ (s.angle = 0 → s.direction = 1)

/-- Abstract `esp_err_t` values: `ESP_OK`, `ESP_FAIL`, and other nonzero
error codes that `httpd_resp_send_chunk` may return. -/
inductive EspErr
  | espOk
  | espFail
  | espCode (code : Nat)
  deriving DecidableEq, Repr

/-- A camera frame buffer (`camera_fb_t`): the JPEG byte buffer `buf` and its
length field `len` as used by `streamHandler`. -/
structure CameraFrame where
  len : Nat
  buf : List Nat
  deriving DecidableEq, Repr

/-- The multipart part header produced by
`snprintf(partBuf, 64, "Content-Type: image/jpeg\r\nContent-Length: %u\r\n\r\n", fb->len)`. -/
def partHeader (len : Nat) : String :=
  "Content-Type: image/jpeg\r\nContent-Length: " ++ toString len ++ "\r\n\r\n"

/-- The environment of one iteration of the `streamHandler` loop: the result
of `esp_camera_fb_get` and the results that the three
`httpd_resp_send_chunk` calls would return if executed. -/
structure StreamEnv where
  frame : Option CameraFrame
  wBoundary : EspErr
  wPart : EspErr
  wJpeg : EspErr
  deriving DecidableEq, Repr

/-- Observable actions of `streamHandler`, in the order they are performed. -/
inductive StreamAction
  | fbGet (fb : Option CameraFrame)
  | sendBoundary (res : EspErr)
  | sendPart (header : String) (res : EspErr)
  | sendJpeg (bytes : List Nat) (res : EspErr)
  | fbReturn (fb : CameraFrame)
  | logCapture (s : String)
  deriving DecidableEq, Repr

/-- The three chained chunk writes of one loop iteration
(camera.cpp, lines 49-53): the boundary is always written; the part header
only if the boundary write returned `ESP_OK`; the JPEG bytes only if the part
header write also returned `ESP_OK`.  Returns the write actions performed and
the final value of `res`. -/
def streamWrites (e : StreamEnv) (fb : CameraFrame) : List StreamAction × EspErr :=
  if e.wBoundary = .espOk then
    if e.wPart = .espOk then
      ([.sendBoundary e.wBoundary, .sendPart (partHeader fb.len) e.wPart,
        .sendJpeg fb.buf e.wJpeg], e.wJpeg)
    else
      ([.sendBoundary e.wBoundary, .sendPart (partHeader fb.len) e.wPart], e.wPart)
  else
    ([.sendBoundary e.wBoundary], e.wBoundary)

/-- The trace of one loop iteration of `streamHandler`: on capture failure,
the acquisition and the log line (with `res = ESP_FAIL`); on success, the
acquisition, the writes, and the unconditional `esp_camera_fb_return(fb)`. -/
def iterTrace (e : StreamEnv) : List StreamAction :=
  match e.frame with
  | none => [.fbGet none, .logCapture "Camera: capture failed"]
  | some fb => .fbGet (some fb) :: (streamWrites e fb).1 ++ [.fbReturn fb]

/-- The value of `res` at the end of one loop iteration. -/
def iterRes (e : StreamEnv) : EspErr :=
  match e.frame with
  | none => .espFail
  | some fb => (streamWrites e fb).2

/-- Embedding of the `while (true)` loop of `streamHandler`
(camera.cpp, lines 39-58), driven by a finite list of iteration environments.
Returns `some res` with the function's return value if the loop breaks within
the supplied environments (the C loop breaks exactly when `res ≠ ESP_OK`), or
`none` if all supplied iterations succeed and the loop is still running,
together with the trace of actions performed. -/
def streamLoop : List StreamEnv → Option EspErr × List StreamAction
  | [] => (none, [])
  | e :: rest =>
    if iterRes e = .espOk then
      ((streamLoop rest).1, iterTrace e ++ (streamLoop rest).2)
    else
      (some (iterRes e), iterTrace e)

/-- Embedding of `streamHandler` (camera.cpp, lines 31-61): first
`httpd_resp_set_type`; on its failure the handler returns that error at once,
otherwise the streaming loop runs. -/
def streamHandler (setTypeRes : EspErr) (env : List StreamEnv) :
    Option EspErr × List StreamAction :=
  if setTypeRes = .espOk then streamLoop env else (some setTypeRes, [])

/-- Number of `esp_camera_fb_return` actions in a trace. -/
def countReturns (tr : List StreamAction) : Nat :=
  tr.countP fun a => match a with | .fbReturn _ => true | _ => false

/-- Number of successful `esp_camera_fb_get` actions in a trace. -/
def countAcquired (tr : List StreamAction) : Nat :=
  tr.countP fun a => match a with | .fbGet (some _) => true | _ => false

/-- A JSON value as stored in an ArduinoJson document; only the shapes the
dispatcher can observe are distinguished (numbers, strings, booleans,
anything else). -/
inductive JsonValue
  | jnum (n : Int)
  | jstr (s : String)
  | jbool (b : Bool)
  | jnull
  deriving DecidableEq, Repr

/-- Whether a JSON value is numeric. -/
def JsonValue.isNum : JsonValue → Bool
  | .jnum _ => true
  | _ => false

/-- Accumulate the leading decimal digits of a character list, `strtol`
style: stop at the first non-digit. -/
def strtolDigits : List Char → Nat → Nat
  | c :: cs, acc => if c.isDigit then strtolDigits cs (acc * 10 + (c.toNat - 48)) else acc
  | [], acc => acc

/-- `strtol` on a C string, as ArduinoJson uses it to convert a JSON string
value to an integer: skip leading whitespace, take an optional sign, then the
longest prefix of decimal digits; a string with no leading number converts
to 0. -/
def strtolInt (s : String) : Int :=
  let cs := s.data.dropWhile fun c => c == ' ' || c == '\t' || c == '\n' || c == '\r'
  match cs with
  | '-' :: rest => -(strtolDigits rest 0 : Int)
  | '+' :: rest => (strtolDigits rest 0 : Int)
  | rest => (strtolDigits rest 0 : Int)

/-- A parsed ArduinoJson document: an association list of top-level fields. -/
structure JsonDoc where
  fields : List (String × JsonValue)
  deriving DecidableEq, Repr

/-- Field access `doc[k]`: the first binding of key `k`, if any. -/
def JsonDoc.lookup (d : JsonDoc) (k : String) : Option JsonValue :=
  (d.fields.find? fun p => p.1 == k).map fun p => p.2

/-- ArduinoJson `const char* x = doc[k]`: the string value if the field exists
and holds a string, otherwise a null pointer (`none`). -/
def JsonDoc.asStr (d : JsonDoc) (k : String) : Option String :=
  match d.lookup k with
  | some (.jstr s) => some s
  | _ => none

/-- ArduinoJson `int x = doc[k]` (`as<int>`): a numeric value converts
directly, a string value is parsed with `strtol` semantics ("100" converts to
100, non-numeric text to 0), a boolean converts to 0/1, and an absent field
or any other value yields the default 0. -/
def JsonDoc.asInt (d : JsonDoc) (k : String) : Int :=
  match d.lookup k with
  | some (.jnum n) => n
  | some (.jstr s) => strtolInt s
  | some (.jbool b) => if b then 1 else 0
  | _ => 0

/-- Whether the field `k` exists and holds a number. -/
def JsonDoc.numField (d : JsonDoc) (k : String) : Bool :=
  match d.lookup k with
  | some v => v.isNum
  | none => false

/-- WebSocket frame opcodes relevant to `AwsFrameInfo` (`WS_TEXT` and the
rest). -/
inductive AwsOpcode
  | text
  | binary
  | cont
  | ping
  | pong
  | close
  deriving DecidableEq, Repr

/-- The fields of `AwsFrameInfo` read by `handleWebSocketMessage`:
`final`, `index`, `len` (the declared length of the message) and `opcode`. -/
structure AwsFrameInfo where
  final : Bool
  index : Nat
  len : Nat
  opcode : AwsOpcode
  deriving DecidableEq, Repr

/-- The result of `deserializeJson` on the received bytes: either a parse
error (`malformed`) or a parsed document. -/
inductive WsPayload
  | malformed
  | parsed (doc : JsonDoc)
  deriving DecidableEq, Repr

/-- The state of the three components the dispatcher can drive: the angle the
steering servo was last driven to, the motor driver pins, and the LED pin. -/
structure SystemState where
  servoAngle : Int
  motor : MotorPins
  ledPin : PinLevel
  deriving DecidableEq, Repr

/-- Observable effects of one call to `handleWebSocketMessage`: the calls
into the servo controller, the motor driver and the LED module (with the raw
forwarded argument), and the log lines.  The handler has no channel back to
the WebSocket client, so there is no client-response effect. -/
inductive Effect
  | servoCall (angle : Int)
  | engineCall (speed : Int)
  | ledCall (level : PinLevel)
  | logLine (s : String)
  deriving DecidableEq, Repr

/-- Modelled from the spec: `servoSetAngle` is called from `web_server.cpp`
but its definition is not among the sources (servo_controller.cpp contains
only the self-driven sweep variant, and servo_controller.h is absent).  Per
the spec, the servo controller "clamps to [0,180]" the absolute angle it is
given and drives the servo there; the returned value is the angle the servo
is driven to. -/
def servoSetAngle (angle : Int) : Int := clampSpec 0 180 angle

/-- The `strcmp` dispatch chain of `handleWebSocketMessage`
(web_server.cpp, lines 156-176), applied to a successfully parsed document:
`const char* type = doc["type"]; if (!type) return;` then the three branches
on `"servo"`, `"engine"`, `"led"`.  Returns the updated component state and
the effects performed, in order. -/
def dispatchDoc (doc : JsonDoc) (s : SystemState) : SystemState × List Effect :=
  match doc.asStr "type" with
  | none => (s, [])
  | some t =>
    if t = "servo" then
      let angle := doc.asInt "angle"
      ({ s with servoAngle := servoSetAngle angle },
        [.servoCall angle, .logLine ("WS: servo " ++ toString angle)])
    else if t = "engine" then
      let speed := doc.asInt "speed"
      ({ s with motor := (engineSetSpeed speed).1 },
        [.engineCall speed, .logLine ("Moteur vitesse " ++ toString speed),
          .logLine ("WS: engine " ++ toString speed)])
    else if t = "led" then
      match doc.asStr "state" with
      | some st =>
        if st = "on" then
          ({ s with ledPin := ledOn s.ledPin }, [.ledCall .high, .logLine "WS: led on"])
        else if st = "off" then
          ({ s with ledPin := ledOff s.ledPin }, [.ledCall .low, .logLine "WS: led off"])
        else (s, [])
      | none => (s, [])
    else (s, [])

/-- The body of `handleWebSocketMessage` once the frame gate has passed
(web_server.cpp, lines 148-176): `deserializeJson` failure is logged and the
function returns; a parsed document goes to the dispatch chain. -/
def processMessage (payload : WsPayload) (s : SystemState) : SystemState × List Effect :=
  match payload with
  | .malformed => (s, [.logLine "WebSocket: JSON invalide"])
  | .parsed doc => dispatchDoc doc s

/-- Embedding of `handleWebSocketMessage` (web_server.cpp, lines 145-178).
The frame gate mirrors
`info->final && info->index == 0 && info->len == len && info->opcode == WS_TEXT`;
a frame failing it is ignored entirely. -/
def handleWebSocketMessage (info : AwsFrameInfo) (len : Nat) (payload : WsPayload)
    (s : SystemState) : SystemState × List Effect :=
  if info.final = true ∧ info.index = 0 ∧ info.len = len ∧ info.opcode = .text then
    processMessage payload s
  else (s, [])

/-- A complete, final, single-frame text frame of declared length `n`. -/
def textFrame (n : Nat) : AwsFrameInfo :=
  { final := true, index := 0, len := n, opcode := .text }

/-- A sample JPEG frame for concrete executions. -/
def sampleFrame : CameraFrame := { len := 3, buf := [255, 216, 255] }

/-- A stream iteration in which everything succeeds. -/
def goodEnv : StreamEnv :=
  { frame := some sampleFrame, wBoundary := .espOk, wPart := .espOk, wJpeg := .espOk }

/-- A stream iteration whose boundary write fails. -/
def badEnv : StreamEnv :=
  { frame := some sampleFrame, wBoundary := .espCode 1, wPart := .espOk, wJpeg := .espOk }

/-- A parsed document whose `type` is none of servo / engine / led. -/
def docUnknownType : JsonDoc := { fields := [("type", .jstr "foo")] }

/-- The LED-on command from the control page. -/
def docLedOn : JsonDoc := { fields := [("type", .jstr "led"), ("state", .jstr "on")] }

/-- The LED-off command from the control page. -/
def docLedOff : JsonDoc := { fields := [("type", .jstr "led"), ("state", .jstr "off")] }

/-- A sample component state for concrete executions. -/
def sampleState : SystemState :=
  { servoAngle := 90, motor := Motor.setSpeed 0, ledPin := .low }

end KartIrl

namespace KartIrl

/-- C1: for every integer speed input, `Motor::setSpeed` (and `engineSetSpeed`,
which forwards to it) clamps the speed to `[-255, 255]` to the nearest bound,
sets `in1`/`in2` to match the sign of the clamped value (positive: in1 HIGH,
in2 LOW; negative: in1 LOW, in2 HIGH; zero: both LOW), and writes a PWM duty
equal to the absolute value of the clamped speed. -/
theorem motor_setSpeed_clamps_and_sets_pins (speed : Int) :
    Motor.setSpeed speed =
      { in1 := if 0 < clampSpec (-255) 255 speed then .high else .low
        in2 := if clampSpec (-255) 255 speed < 0 then .high else .low
        duty := (clampSpec (-255) 255 speed).natAbs }
    ∧ clampSpec (-255) 255 speed
        = (if speed < -255 then -255 else if 255 < speed then 255 else speed)
    ∧ -255 ≤ clampSpec (-255) 255 speed ∧ clampSpec (-255) 255 speed ≤ 255
    ∧ (engineSetSpeed speed).1 = Motor.setSpeed speed := by
  have hclamp : clampSpec (-255) 255 speed
      = (if speed < -255 then -255 else if 255 < speed then 255 else speed) := by
    simp only [clampSpec]
    omega
  refine ⟨?_, hclamp, ?_, ?_, rfl⟩
  · simp only [Motor.setSpeed, hclamp]
    split_ifs <;> simp_all <;> omega
  · simp only [clampSpec]; omega
  · simp only [clampSpec]; omega

theorem sweepInv_init : SweepInv sweepInit := by
  simp [SweepInv, sweepInit]

theorem sweepInv_step (s : SweepState) (h : SweepInv s) :
    SweepInv (servoLoopTick s).1 := by
  obtain ⟨hd, h0, h180, hb180, hb0⟩ := h
  simp only [SweepInv, servoLoopTick]
  rcases hd with hd | hd <;> split_ifs <;> simp_all <;> omega

theorem sweepInv_after (n : Nat) : SweepInv (sweepAfter n) := by
  induction n with
  | zero => exact sweepInv_init
  | succ k ih =>
      have : sweepAfter (k + 1) = (servoLoopTick (sweepAfter k)).1 := by
        simp [sweepAfter, Function.iterate_succ_apply']
      rw [this]
      exact sweepInv_step _ ih

theorem servoLoopTick_spec (s : SweepState) (h : SweepInv s) :
    ((s.direction = 1 ∨ s.direction = -1)
      ∧ (servoLoopTick s).1.angle = s.angle + s.direction)
    ∧ (0 ≤ (servoLoopTick s).1.angle ∧ (servoLoopTick s).1.angle ≤ 180)
    ∧ ((servoLoopTick s).1.direction ≠ s.direction
        ↔ ((servoLoopTick s).1.angle = 180 ∨ (servoLoopTick s).1.angle = 0))
    ∧ ((servoLoopTick s).1.angle = 180 → (servoLoopTick s).1.direction = -1)
    ∧ ((servoLoopTick s).1.angle = 0 → (servoLoopTick s).1.direction = 1)
    ∧ ((servoLoopTick s).2 ≠ []
        ↔ ((servoLoopTick s).1.angle = 180 ∨ (servoLoopTick s).1.angle = 0)) := by
  obtain ⟨hd, h0, h180, hb180, hb0⟩ := h
  simp only [servoLoopTick]
  rcases hd with hd | hd <;> split_ifs <;> simp_all <;> omega

/-- C7: on every fired tick of the self-driven servo sweep, starting from the
initial angle 90, the angle advances by exactly the current direction (`±1`),
the written angle stays in `[0, 180]`, the direction changes exactly when the
updated angle reaches the 180 boundary (becoming `-1`) or the 0 boundary
(becoming `1`), and the log is nonempty exactly when such a reversal happens.
The `~20ms` pacing (`millis() - lastMove > 20`) is real-time behavior and is
not part of the embedded state transition. -/
theorem servo_sweep_tick_properties (n : Nat) :
    (((sweepAfter n).direction = 1 ∨ (sweepAfter n).direction = -1)
      ∧ (servoLoopTick (sweepAfter n)).1.angle
          = (sweepAfter n).angle + (sweepAfter n).direction)
    ∧ (0 ≤ (servoLoopTick (sweepAfter n)).1.angle
      ∧ (servoLoopTick (sweepAfter n)).1.angle ≤ 180)
    ∧ ((servoLoopTick (sweepAfter n)).1.direction ≠ (sweepAfter n).direction
        ↔ ((servoLoopTick (sweepAfter n)).1.angle = 180
            ∨ (servoLoopTick (sweepAfter n)).1.angle = 0))
    ∧ ((servoLoopTick (sweepAfter n)).1.angle = 180
        → (servoLoopTick (sweepAfter n)).1.direction = -1)
    ∧ ((servoLoopTick (sweepAfter n)).1.angle = 0
        → (servoLoopTick (sweepAfter n)).1.direction = 1)
    ∧ ((servoLoopTick (sweepAfter n)).2 ≠ []
        ↔ ((servoLoopTick (sweepAfter n)).1.angle = 180
            ∨ (servoLoopTick (sweepAfter n)).1.angle = 0))
    ∧ sweepAfter 0 = sweepInit ∧ sweepInit.angle = 90 := by
  have h := servoLoopTick_spec (sweepAfter n) (sweepInv_after n)
  exact ⟨h.1, h.2.1, h.2.2.1, h.2.2.2.1, h.2.2.2.2.1, h.2.2.2.2.2, rfl, rfl⟩

theorem servo_sweep_tick_properties_witness :
    (servoLoopTick (sweepAfter 0)).1.angle = 91
    ∧ (0 ≤ (servoLoopTick (sweepAfter 0)).1.angle
      ∧ (servoLoopTick (sweepAfter 0)).1.angle ≤ 180) :=
  ⟨rfl, (servo_sweep_tick_properties 0).2.1⟩

end KartIrl

namespace KartIrl

theorem iterTrace_balanced (e : StreamEnv) :
    countReturns (iterTrace e) = countAcquired (iterTrace e) := by
  rcases e with ⟨frame, wB, wP, wJ⟩
  rcases frame with _ | fb
  · rfl
  · simp only [iterTrace, streamWrites]
    split_ifs <;> rfl

theorem streamLoop_ok_front (good tail : List StreamEnv)
    (hg : ∀ e ∈ good, iterRes e = .espOk) :
    streamLoop (good ++ tail)
      = ((streamLoop tail).1, (good.map iterTrace).flatten ++ (streamLoop tail).2) := by
  induction good with
  | nil => simp
  | cons e g ih =>
      have he : iterRes e = .espOk := hg e (List.mem_cons_self e g)
      have hg2 : ∀ x ∈ g, iterRes x = .espOk := fun x hx => hg x (List.mem_cons_of_mem e hx)
      simp [streamLoop, he, ih hg2]

theorem iterRes_ok_fullTrace (e : StreamEnv) (h : iterRes e = .espOk) :
    ∃ f, e.frame = some f
      ∧ e.wBoundary = .espOk ∧ e.wPart = .espOk ∧ e.wJpeg = .espOk
      ∧ iterTrace e = [.fbGet (some f), .sendBoundary .espOk,
          .sendPart (partHeader f.len) .espOk, .sendJpeg f.buf .espOk, .fbReturn f] := by
  rcases e with ⟨frame, wB, wP, wJ⟩
  rcases frame with _ | f
  · simp [iterRes] at h
  · refine ⟨f, rfl, ?_⟩
    simp only [iterRes, streamWrites] at h
    simp only [iterTrace, streamWrites]
    split_ifs at h ⊢ <;> simp_all

/-- C5: on an HTTP GET to the stream endpoint whose `httpd_resp_set_type`
succeeds, each successful iteration of the `streamHandler` loop performs, in
order: acquire a frame buffer, write the boundary marker, write the
Content-Type/Content-Length part header, write the JPEG bytes, release the
frame buffer.  On the first iteration that fails (failed frame acquisition or
failed chunk write, after any number of successful iterations), the loop
terminates and the handler returns a non-OK error; within that iteration the
writes after the first failed write are skipped, while the frame buffer, if
acquired, is still released. -/
theorem stream_iterations_and_first_failure (good : List StreamEnv) (bad : StreamEnv)
    (rest : List StreamEnv) (hg : ∀ e ∈ good, iterRes e = .espOk)
    (hb : iterRes bad ≠ .espOk) :
    streamHandler .espOk (good ++ bad :: rest)
        = (some (iterRes bad), (good.map iterTrace).flatten ++ iterTrace bad)
    ∧ (∀ e ∈ good, ∃ f, e.frame = some f
        ∧ iterTrace e = [.fbGet (some f), .sendBoundary .espOk,
            .sendPart (partHeader f.len) .espOk, .sendJpeg f.buf .espOk, .fbReturn f])
    ∧ (bad.frame = none →
        iterTrace bad = [.fbGet none, .logCapture "Camera: capture failed"]
          ∧ iterRes bad = .espFail)
    ∧ (∀ f, bad.frame = some f → bad.wBoundary ≠ .espOk →
        iterTrace bad = [.fbGet (some f), .sendBoundary bad.wBoundary, .fbReturn f]
          ∧ iterRes bad = bad.wBoundary)
    ∧ (∀ f, bad.frame = some f → bad.wBoundary = .espOk → bad.wPart ≠ .espOk →
        iterTrace bad = [.fbGet (some f), .sendBoundary .espOk,
            .sendPart (partHeader f.len) bad.wPart, .fbReturn f]
          ∧ iterRes bad = bad.wPart)
    ∧ (∀ f, bad.frame = some f → bad.wBoundary = .espOk → bad.wPart = .espOk →
        iterTrace bad = [.fbGet (some f), .sendBoundary .espOk,
            .sendPart (partHeader f.len) .espOk, .sendJpeg f.buf bad.wJpeg, .fbReturn f]
          ∧ iterRes bad = bad.wJpeg) := by
  refine ⟨?_, ?_, ?_, ?_, ?_, ?_⟩
  · have h1 : streamHandler .espOk (good ++ bad :: rest)
        = streamLoop (good ++ bad :: rest) := by
      simp [streamHandler]
    rw [h1, streamLoop_ok_front good (bad :: rest) hg]
    simp [streamLoop, hb]
  · intro e he
    obtain ⟨f, hf, _, _, _, htr⟩ := iterRes_ok_fullTrace e (hg e he)
    exact ⟨f, hf, htr⟩
  · intro hnone
    constructor <;> simp [iterTrace, iterRes, hnone]
  · intro f hf hw
    rcases bad with ⟨frame, wB, wP, wJ⟩
    simp only at hf hw
    subst hf
    constructor <;> simp [iterTrace, iterRes, streamWrites, hw]
  · intro f hf hw1 hw2
    rcases bad with ⟨frame, wB, wP, wJ⟩
    simp only at hf hw1 hw2
    subst hf; subst hw1
    constructor <;> simp [iterTrace, iterRes, streamWrites, hw2]
  · intro f hf hw1 hw2
    rcases bad with ⟨frame, wB, wP, wJ⟩
    simp only at hf hw1 hw2
    subst hf; subst hw1; subst hw2
    constructor <;> simp [iterTrace, iterRes, streamWrites]

theorem stream_iterations_and_first_failure_witness :
    iterRes goodEnv = EspErr.espOk
    ∧ iterRes badEnv ≠ EspErr.espOk
    ∧ streamHandler .espOk [goodEnv, badEnv]
        = (some (iterRes badEnv), ([goodEnv].map iterTrace).flatten ++ iterTrace badEnv) :=
  ⟨by decide, by decide,
    (stream_iterations_and_first_failure [goodEnv] badEnv []
      (by decide) (by decide)).1⟩

/-- C10: in every execution of the `streamHandler` loop, frame-buffer
releases balance successful acquisitions (each acquired frame is released
exactly once), and within one iteration that acquired a frame the release is
the last action of that iteration — in particular it still happens, exactly
once, when one of the chunk writes for that frame fails. -/
theorem stream_release_per_acquire (env : List StreamEnv) (e : StreamEnv)
    (fb : CameraFrame) :
    countReturns (streamLoop env).2 = countAcquired (streamLoop env).2
    ∧ (e.frame = some fb →
        countReturns (iterTrace e) = 1
          ∧ (iterTrace e).getLast? = some (.fbReturn fb)) := by
  constructor
  · induction env with
    | nil => rfl
    | cons a l ih =>
        by_cases h : iterRes a = .espOk
        · have hbal := iterTrace_balanced a
          simp only [streamLoop, if_pos h, countReturns, countAcquired,
            List.countP_append] at hbal ih ⊢
          omega
        · simp only [streamLoop, if_neg h]
          exact iterTrace_balanced a
  · intro hf
    rcases e with ⟨frame, wB, wP, wJ⟩
    simp only at hf
    subst hf
    simp only [iterTrace, streamWrites]
    constructor
    · split_ifs <;> rfl
    · split_ifs <;> rfl

theorem stream_release_per_acquire_witness :
    badEnv.frame = some sampleFrame
    ∧ countReturns (streamLoop [goodEnv, badEnv]).2
        = countAcquired (streamLoop [goodEnv, badEnv]).2
    ∧ countReturns (iterTrace badEnv) = 1
    ∧ (iterTrace badEnv).getLast? = some (.fbReturn sampleFrame) := by
  have h := stream_release_per_acquire [goodEnv, badEnv] badEnv sampleFrame
  exact ⟨rfl, h.1, (h.2 rfl).1, (h.2 rfl).2⟩

end KartIrl

namespace KartIrl

theorem handleWebSocketMessage_validFrame (info : AwsFrameInfo) (len : Nat)
    (payload : WsPayload) (s : SystemState)
    (hfinal : info.final = true) (hidx : info.index = 0) (hlen : info.len = len)
    (hop : info.opcode = .text) :
    handleWebSocketMessage info len payload s = processMessage payload s := by
  rw [handleWebSocketMessage, if_pos ⟨hfinal, hidx, hlen, hop⟩]

/-- C2: when a complete final single-frame text payload fails JSON parsing,
the dispatcher logs the parse error and drops the message: the state of every
component is unchanged and the only effect is the log line — no servo, engine
or LED call.  The handler, like `handleWebSocketMessage` in the source, has no
channel back to the WebSocket client, so no error is returned to it (there is
no client-response effect in the `Effect` type). -/
theorem ws_malformed_json_dropped (info : AwsFrameInfo) (len : Nat) (s : SystemState)
    (hfinal : info.final = true) (hidx : info.index = 0) (hlen : info.len = len)
    (hop : info.opcode = .text) :
    handleWebSocketMessage info len .malformed s
      = (s, [.logLine "WebSocket: JSON invalide"]) := by
  rw [handleWebSocketMessage_validFrame info len .malformed s hfinal hidx hlen hop]
  rfl

theorem ws_malformed_json_dropped_witness :
    (textFrame 9).final = true
    ∧ handleWebSocketMessage (textFrame 9) 9 .malformed sampleState
        = (sampleState, [.logLine "WebSocket: JSON invalide"]) :=
  ⟨rfl, ws_malformed_json_dropped (textFrame 9) 9 sampleState rfl rfl rfl rfl⟩

/-- C6: the dispatcher processes a message only if the frame is a complete,
final, single-frame text payload (`final` set, `index = 0`, declared length
equal to the received length, text opcode); a frame failing any of these
conditions is ignored: the state is unchanged and no effect at all — no
component call, not even a log line — is produced. -/
theorem ws_incomplete_frame_ignored (info : AwsFrameInfo) (len : Nat)
    (payload : WsPayload) (s : SystemState)
    (h : ¬(info.final = true ∧ info.index = 0 ∧ info.len = len ∧ info.opcode = .text)) :
    handleWebSocketMessage info len payload s = (s, []) := by
  rw [handleWebSocketMessage, if_neg h]

theorem ws_incomplete_frame_ignored_witness :
    ¬((false : Bool) = true ∧ (0 : Nat) = 0 ∧ (4 : Nat) = 4 ∧ AwsOpcode.text = AwsOpcode.text)
    ∧ handleWebSocketMessage
        { final := false, index := 0, len := 4, opcode := .text } 4 .malformed sampleState
      = (sampleState, []) :=
  ⟨by decide,
    ws_incomplete_frame_ignored { final := false, index := 0, len := 4, opcode := .text }
      4 .malformed sampleState (by decide)⟩

/-- C3 counterexample: a well-formed message whose `type` is the unrecognized
string "foo", delivered in a valid frame, produces an empty effect list — in
particular no `logLine` effect at all — so the claim's "the message is
logged" is false on the code: `handleWebSocketMessage` returns without
logging when `type` is missing or unrecognized (only malformed JSON is
logged). -/
theorem ws_unknown_type_not_logged_counterexample :
    handleWebSocketMessage (textFrame 14) 14 (.parsed docUnknownType) sampleState
      = (sampleState, []) := by decide

/-- C3 (amended): a well-formed JSON message whose `type` field is missing,
non-string, or none of `servo` / `engine` / `led` is silently dropped
WITHOUT logging: the state of every component is unchanged and no effect is
produced. -/
theorem ws_unknown_type_dropped_silently (info : AwsFrameInfo) (len : Nat)
    (doc : JsonDoc) (s : SystemState)
    (hfinal : info.final = true) (hidx : info.index = 0) (hlen : info.len = len)
    (hop : info.opcode = .text)
    (htype : ∀ t, doc.asStr "type" = some t → t ≠ "servo" ∧ t ≠ "engine" ∧ t ≠ "led") :
    handleWebSocketMessage info len (.parsed doc) s = (s, []) := by
  rw [handleWebSocketMessage_validFrame info len (.parsed doc) s hfinal hidx hlen hop]
  show dispatchDoc doc s = (s, [])
  cases hty : doc.asStr "type" with
  | none => simp [dispatchDoc, hty]
  | some t =>
      obtain ⟨h1, h2, h3⟩ := htype t hty
      simp [dispatchDoc, hty, h1, h2, h3]

theorem ws_unknown_type_dropped_silently_witness :
    docUnknownType.asStr "type" = some "foo"
    ∧ handleWebSocketMessage (textFrame 14) 14 (.parsed docUnknownType) sampleState
        = (sampleState, []) :=
  ⟨rfl,
    ws_unknown_type_dropped_silently (textFrame 14) 14 docUnknownType sampleState
      rfl rfl rfl rfl
      (fun t ht => by
        have hfoo : (some "foo" : Option String) = some t := ht
        have : t = "foo" := (Option.some.inj hfoo).symm
        subst this
        exact ⟨by decide, by decide, by decide⟩)⟩

end KartIrl

namespace KartIrl

/-- C4: for every integer angle carried by a `servo` WebSocket command, the
servo controller clamps the angle to `[0, 180]`: inputs below 0 drive the
servo to 0, inputs above 180 drive it to 180, in-range inputs pass through;
the dispatcher stores exactly the clamped angle as the driven angle.
`servoSetAngle` is modelled from the spec (its definition is not among the
sources; see its doc comment). -/
theorem servo_angle_clamped (angle : Int) (len : Nat) (s : SystemState) :
    servoSetAngle angle = (if angle < 0 then 0 else if 180 < angle then 180 else angle)
    ∧ 0 ≤ servoSetAngle angle ∧ servoSetAngle angle ≤ 180
    ∧ (handleWebSocketMessage (textFrame len) len
        (.parsed { fields := [("type", .jstr "servo"), ("angle", .jnum angle)] }) s).1.servoAngle
      = servoSetAngle angle := by
  refine ⟨?_, ?_, ?_, ?_⟩
  · simp only [servoSetAngle, clampSpec]; omega
  · simp only [servoSetAngle, clampSpec]; omega
  · simp only [servoSetAngle, clampSpec]; omega
  · rw [handleWebSocketMessage_validFrame _ len _ s rfl rfl rfl rfl]
    rfl

/-- C9: processing `{"type":"led","state":"on"}` and then
`{"type":"led","state":"off"}`, each in a valid frame, leaves the LED pin
low, whatever the initial component state (in particular whatever the initial
LED pin level); the intermediate state after the `on` command has the pin
high. -/
theorem led_on_then_off_pin_low (s : SystemState) :
    (handleWebSocketMessage (textFrame 31) 31 (.parsed docLedOff)
        (handleWebSocketMessage (textFrame 30) 30 (.parsed docLedOn) s).1).1.ledPin
      = PinLevel.low
    ∧ (handleWebSocketMessage (textFrame 30) 30 (.parsed docLedOn) s).1.ledPin
      = PinLevel.high :=
  ⟨rfl, rfl⟩

end KartIrl
